import Mathlib

/-!
Shallow embedding of the multi-tenant storefront backend
(`src/index.ts`, `src/routes/orderRoutes.ts`, `src/routes/staffRoutes.ts`).

Database rows are records, tables are lists of rows, and each Express
handler becomes a pure function from the request data and the database
state to a result (and, for the order-creation transaction, a new
database state).  Prices (`DECIMAL` columns read through `parseFloat`)
are modelled as rationals; dates (`YYYY-MM-DD` strings compared as local
midnights) are modelled as integer day numbers.
-/

namespace Vet

/-- Row of the `tenants` table: numeric surrogate key `id` and the public
slug stored in column `tenant_id`. -/
structure Tenant where
  id : Nat
  slug : String
deriving Repr, DecidableEq

/-- Row of the `products` table (the columns the order/history code reads). -/
structure Product where
  id : Nat
  tenantId : Nat
  name : String
  price : ℚ
  stock : Int
  isAvailable : Bool
deriving Repr, DecidableEq

/-- Row of the `orders` table.  `createdAt` models the schema-defaulted
`created_at` timestamp (the time the inserting request ran). -/
structure Order where
  id : Nat
  tenantId : Nat
  clientId : Int
  totalAmount : ℚ
  status : String
  pickupDate : Int
  expirationDate : Int
  createdAt : Int
deriving Repr, DecidableEq

/-- Row of the `order_items` table. -/
structure OrderItem where
  orderId : Nat
  productId : Nat
  quantity : Int
  unitPrice : ℚ
deriving Repr, DecidableEq

/-- Row of the `product_images` join table. -/
structure ProductImage where
  productId : Nat
  imageId : Nat
  isPrimary : Bool
deriving Repr, DecidableEq

/-- Row of the `images` table. -/
structure Image where
  id : Nat
  url : String
deriving Repr, DecidableEq

/-- Row of the `staff` table (the columns `staffRoutes.ts` reads). -/
structure Staff where
  id : Nat
  tenantId : Nat
  email : String
  name : String
  isAdmin : Bool
  role : String
deriving Repr, DecidableEq

/-- The database state: one list per table, plus the `orders` table's
`AUTO_INCREMENT` counter. -/
structure DB where
  tenants : List Tenant
  products : List Product
  orders : List Order
  orderItems : List OrderItem
  productImages : List ProductImage
  images : List Image
  staff : List Staff
  nextOrderId : Nat
deriving Repr, DecidableEq

/-! ## JavaScript string primitives

The handlers use `split`, `startsWith` and `includes` on strings.  They
are modelled on the character list of the string with structural
recursion, matching the JavaScript semantics for a single-character
separator / needle. -/

/-- Helper for `jsSplit`: walk the characters, cutting at each separator;
`acc` holds the current (reversed) chunk. -/
def splitChars (sep : Char) : List Char → List Char → List (List Char)
  | [], acc => [acc.reverse]
  | c :: cs, acc =>
    if c = sep then acc.reverse :: splitChars sep cs []
    else splitChars sep cs (c :: acc)

/-- JavaScript `s.split(sep)` for a single-character separator
(`''.split(x) = ['']`, separators at the ends produce empty chunks). -/
def jsSplit (s : String) (sep : Char) : List String :=
  (splitChars sep s.data []).map (fun cs => String.mk cs)

/-- JavaScript `s.startsWith(pre)`. -/
def jsStartsWith (s pre : String) : Bool :=
  pre.data.isPrefixOf s.data

/-- JavaScript `s.includes(c)` for a single-character needle. -/
def jsIncludes (s : String) (c : Char) : Bool :=
  s.data.contains c

/-! ## Tenant resolution (`src/index.ts`, `resolveTenant`) -/

/-- The `resolveTenant` middleware of `src/index.ts`.  Returns the slug it
injects as `req.tenantId`, or `none` when the middleware skips injection
(`/api/external` paths).  A present-but-empty `x-tenant-slug` header is
falsy in JavaScript, hence also falls back to the literal `'chavez'`. -/
def resolveTenant (path : String) (hostname : String) (xTenantSlug : Option String) :
    Option String :=
  if jsStartsWith path "/api/external" then none
  else if hostname ≠ "localhost" ∧ hostname ≠ "127.0.0.1" ∧ jsIncludes hostname '.' then
    some ((jsSplit hostname '.').headD hostname)
  else
    some (match xTenantSlug with
      | some s => if s = "" then "chavez" else s
      | none => "chavez")

/-! ## Client authentication (`orderRoutes.ts`, `verifyClientToken`) -/

/-- The `req.user` object injected by `verifyClientToken` (role is always
`'client'` there, so it is omitted). -/
structure ClientUser where
  id : Int
  tenant_id : String
deriving Repr, DecidableEq

/-- Outcome of an authentication middleware: an HTTP rejection
(status code and message) or the injected user. -/
inductive AuthResult where
  | reject (status : Nat) (message : String)
  | ok (user : ClientUser)
deriving Repr, DecidableEq

/-- Helper for `jsParseInt`: fold decimal digits into a natural number. -/
def digitsToNat : List Char → Nat → Nat
  | [], acc => acc
  | c :: cs, acc => digitsToNat cs (acc * 10 + (c.toNat - Char.toNat '0'))

/-- JavaScript `parseInt(s, 10)` restricted to the integer strings the
code actually feeds it (non-numeric input is irrelevant to the
properties here). -/
def jsParseInt (s : String) : Int :=
  match s.data with
  | '-' :: cs => -(digitsToNat cs 0 : Int)
  | cs => (digitsToNat cs 0 : Int)

/-- `verifyClientToken` from `orderRoutes.ts`: takes the `authorization`
header, extracts the bearer token (`header.split(' ')[1]`), splits it at
`':'` into `tenant_slug:role:client_id`, and rejects with 401 unless the
slug is non-empty, the role is exactly `'client'` and the subject id part
is non-empty.  JavaScript destructuring yields `undefined` for missing
parts and `''` is falsy; both are modelled by the defaulted `""`. -/
def verifyClientToken (authHeader : Option String) : AuthResult :=
  let token := authHeader.bind (fun h => (jsSplit h ' ').get? 1)
  match token with
  | none => .reject 401 "No autenticado."
  | some t =>
    if t = "" then .reject 401 "No autenticado."
    else
      let parts := jsSplit t ':'
      let tenant_slug := parts.getD 0 ""
      let role := parts.getD 1 ""
      let client_id := parts.getD 2 ""
      if tenant_slug = "" ∨ role ≠ "client" ∨ client_id = "" then
        .reject 401 "Token de cliente no válido."
      else
        .ok { id := jsParseInt client_id, tenant_id := tenant_slug }

/-! ## Tenant access guard (`orderRoutes.ts`, `ensureTenantAccess`) -/

/-- `getTenantInfoBySlug` from `orderRoutes.ts`:
`SELECT id, tenant_id FROM tenants WHERE tenant_id = ?`. -/
def getTenantInfoBySlug (db : DB) (tenantSlug : String) : Option Tenant :=
  db.tenants.find? (fun t => t.slug == tenantSlug)

/-- Outcome of the `ensureTenantAccess` middleware. -/
inductive GuardResult where
  | badRequest (message : String)
  | notFound (message : String)
  | forbidden (message : String)
  | authorized (resolvedTenant : Tenant)
deriving Repr, DecidableEq

/-- `ensureTenantAccess` from `orderRoutes.ts`: 400 when no slug was
injected (or it is empty, which is falsy), then 404 when the slug matches
no tenant row, then 403 when there is no authenticated user or the
credential's slug differs from the requested slug; otherwise it attaches
the resolved tenant. -/
def ensureTenantAccess (db : DB) (requestedTenantSlug : Option String)
    (user : Option ClientUser) : GuardResult :=
  match requestedTenantSlug with
  | none => .badRequest "Slug de inquilino no encontrado."
  | some slug =>
    if slug = "" then .badRequest "Slug de inquilino no encontrado."
    else
      match getTenantInfoBySlug db slug with
      | none => .notFound ("Inquilino " ++ slug ++ " no encontrado.")
      | some tenantInfo =>
        match user with
        | none => .forbidden "Acceso denegado."
        | some u =>
          if u.tenant_id ≠ slug then .forbidden "Acceso denegado."
          else .authorized tenantInfo

/-! ## Order creation (`orderRoutes.ts`, `POST /`) -/

/-- One element of the request body's `items` array. -/
structure LineItem where
  productId : Nat
  quantity : Int
deriving Repr, DecidableEq

/-- The failure modes of `POST /api/orders`: the three 400 validations
that run before the transaction is opened, and the two errors thrown
inside the transaction (surfaced as 500 after rollback). -/
inductive OrderError where
  | missingFields
  | dateNotFuture
  | dateTooFar
  | productUnavailable (productId : Nat)
  | insufficientStock (productId : Nat)
deriving Repr, DecidableEq

/-- The response message of each failure mode, as built by the source. -/
def OrderError.message : OrderError → String
  | .missingFields => "Faltan productos o fecha de recojo."
  | .dateNotFuture => "La fecha de recojo debe ser en el futuro."
  | .dateTooFar => "La fecha de recojo no puede superar los 10 días."
  | .productUnavailable pid => "El producto ID " ++ toString pid ++ " no está disponible."
  | .insufficientStock pid => "Stock insuficiente para el producto ID " ++ toString pid ++ "."

/-- The locked product read of the transaction:
`SELECT price, stock FROM products WHERE id = ? AND tenant_id = ? AND
is_available = TRUE FOR UPDATE`. -/
def findProduct (db : DB) (tenantDbId : Nat) (productId : Nat) : Option Product :=
  db.products.find? (fun p => p.id == productId && p.tenantId == tenantDbId && p.isAvailable)

/-- Step 1 of the transaction (`// 1. Verificar stock y calcular total`):
walk the items, look each product up, fail on a missing row or on
`product.stock < item.quantity`, and otherwise record the price in the
`productPrices` map and add `price * quantity` to the running total. -/
def checkItems (db : DB) (tenantDbId : Nat) :
    List LineItem → (Nat → Option ℚ) → ℚ → Except OrderError ((Nat → Option ℚ) × ℚ)
  | [], productPrices, totalAmount => .ok (productPrices, totalAmount)
  | item :: rest, productPrices, totalAmount =>
    match findProduct db tenantDbId item.productId with
    | none => .error (.productUnavailable item.productId)
    | some product =>
      if product.stock < item.quantity then
        .error (.insufficientStock item.productId)
      else
        checkItems db tenantDbId rest
          (fun k => if k = item.productId then some product.price else productPrices k)
          (totalAmount + product.price * (item.quantity : ℚ))

/-- Step 3 of the transaction (`// 3. Insertar items y actualizar stock`):
for each item, append an `order_items` row carrying the snapshotted
`productPrices[item.productId]`, then run
`UPDATE products SET stock = stock - ? WHERE id = ?` (the update filters
by primary key only, exactly as the source does). -/
def insertItems (orderId : Nat) (productPrices : Nat → Option ℚ) :
    List LineItem → DB → DB
  | [], db => db
  | item :: rest, db =>
    let db1 : DB := { db with
      orderItems := db.orderItems ++
        [{ orderId := orderId, productId := item.productId, quantity := item.quantity,
           unitPrice := (productPrices item.productId).getD 0 }],
      products := db.products.map (fun p =>
        if p.id == item.productId then { p with stock := p.stock - item.quantity } else p) }
    insertItems orderId productPrices rest db1

/-- The `POST /` handler of `orderRoutes.ts` after the middlewares ran:
`today` is `new Date()` truncated to midnight, `pickupDate` the request's
date, both as day numbers.  Validation (missing items, date not in
`(today, today+10]`) happens before the transaction; the transaction
checks every item, inserts the `orders` row (status `'pending_pickup'`,
`expiration_date = pickupDate + 2`), inserts the `order_items` rows and
decrements stock, and commits.  Any thrown error rolls the transaction
back, returning the original database unchanged. -/
def createOrder (today : Int) (db : DB) (tenantDbId : Nat) (clientId : Int)
    (items : List LineItem) (pickupDate : Int) :
    Except OrderError (Nat × ℚ) × DB :=
  if items.isEmpty then (.error .missingFields, db)
  else if pickupDate ≤ today then (.error .dateNotFuture, db)
  else if pickupDate > today + 10 then (.error .dateTooFar, db)
  else
    match checkItems db tenantDbId items (fun _ => none) 0 with
    | .error e => (.error e, db)
    | .ok (productPrices, totalAmount) =>
      let orderId := db.nextOrderId
      let db1 : DB := { db with
        orders := db.orders ++
          [{ id := orderId, tenantId := tenantDbId, clientId := clientId,
             totalAmount := totalAmount, status := "pending_pickup",
             pickupDate := pickupDate, expirationDate := pickupDate + 2,
             createdAt := today }],
        nextOrderId := db.nextOrderId + 1 }
      let db2 := insertItems orderId productPrices items db1
      (.ok (orderId, totalAmount), db2)

/-! ## Order history (`orderRoutes.ts`, `GET /my-orders`) -/

/-- `getDisplayImageUrl` from `orderRoutes.ts`: empty path is falsy and
yields `null`; absolute `http...` paths pass through; relative paths are
prefixed with the request host (port stripped) and port 4000. -/
def getDisplayImageUrl (path : String) (hostname : String) : Option String :=
  if path = "" then none
  else
    let host := (jsSplit hostname ':').headD hostname
    if jsStartsWith path "http" then some path
    else some ("http://" ++ host ++ ":4000" ++ path)

/-- One row of the item query of `GET /my-orders`
(`order_items` joined with `products` and the image tables). -/
structure OrderItemRow where
  order_id : Nat
  product_id : Nat
  quantity : Int
  unit_price : ℚ
  product_name : String
  product_image : Option String
deriving Repr, DecidableEq

/-- One element of the `items` array in the `GET /my-orders` response. -/
structure ItemView where
  product_id : Nat
  quantity : Int
  unit_price : ℚ
  product_name : String
  product_image : Option String
deriving Repr, DecidableEq

/-- One element of the `orders` array in the `GET /my-orders` response. -/
structure OrderView where
  id : Nat
  total_amount : ℚ
  status : String
  pickup_date : Int
  created_at : Int
  items : List ItemView
deriving Repr, DecidableEq

/-- The item query of `GET /my-orders`:
`SELECT oi.*, p.name, i.url FROM order_items oi JOIN products p ON
oi.product_id = p.id LEFT JOIN product_images pi ON p.id = pi.product_id
AND pi.is_primary = TRUE LEFT JOIN images i ON pi.image_id = i.id WHERE
oi.order_id IN (?)`.  The inner join drops items whose product row is
gone; the left joins yield `NULL` (`none`) when no primary image exists. -/
def orderItemRows (db : DB) (orderIds : List Nat) : List OrderItemRow :=
  (db.orderItems.filter (fun oi => orderIds.contains oi.orderId)).filterMap (fun oi =>
    (db.products.find? (fun p => p.id == oi.productId)).map (fun p =>
      { order_id := oi.orderId, product_id := oi.productId, quantity := oi.quantity,
        unit_price := oi.unitPrice, product_name := p.name,
        product_image :=
          (db.productImages.find? (fun pi => pi.productId == p.id && pi.isPrimary)).bind
            (fun pi => (db.images.find? (fun img => img.id == pi.imageId)).map Image.url) }))

/-- The `GET /my-orders` handler after the middlewares ran: the client's
orders for this tenant, newest first (`ORDER BY created_at DESC`;
`created_at` is the insertion time, so descending order is the reverse of
insertion order), each with its items mapped through the image-URL
helper.  A truthy check guards `getDisplayImageUrl`, so an empty stored
path also becomes `null`. -/
def myOrders (db : DB) (tenantDbId : Nat) (clientId : Int) (hostname : String) :
    List OrderView :=
  let orders := (db.orders.filter
    (fun o => o.clientId == clientId && o.tenantId == tenantDbId)).reverse
  let orderIds := orders.map Order.id
  let items := orderItemRows db orderIds
  orders.map (fun o =>
    { id := o.id, total_amount := o.totalAmount, status := o.status,
      pickup_date := o.pickupDate, created_at := o.createdAt,
      items := (items.filter (fun it => it.order_id == o.id)).map (fun it =>
        { product_id := it.product_id, quantity := it.quantity,
          unit_price := it.unit_price, product_name := it.product_name,
          product_image := match it.product_image with
            | none => none
            | some pimg =>
              if pimg = "" then none else getDisplayImageUrl pimg hostname }) })

/-! ## Catalog price update (`productAdminRoutes.ts`, `PUT /:productId`) -/

/-- The per-row effect of the catalog price update: set `price` on the
row matched by `WHERE id = ? AND tenant_id = ?`, leave other rows alone. -/
def priceUpdater (productId tenantDbId : Nat) (newPrice : ℚ) (p : Product) : Product :=
  if p.id == productId && p.tenantId == tenantDbId then { p with price := newPrice } else p

/-- The price component of the catalog update
`UPDATE products SET ..., price = ?, ... WHERE id = ? AND tenant_id = ?`
(`productAdminRoutes.ts`), restricted to the `price` column, which is the
only column the price-immutability property concerns. -/
def updateProductPrice (db : DB) (productId : Nat) (tenantDbId : Nat) (newPrice : ℚ) : DB :=
  { db with products := db.products.map (priceUpdater productId tenantDbId newPrice) }

/-! ## Staff management (current `staffRoutes.ts`, mounted at `/api/staff`)

The current staff router ("Implementación multi-inquilino corregida para
subdominio") takes the tenant from the slug the `resolveTenant` middleware
resolved from the subdomain/header — not from the request path — and runs
the same guard chain as the order routes: `verifyToken` parses the bearer
credential, then `ensureTenantAccess` resolves the slug and rejects a
cross-tenant principal with 403 before any staff read. -/

/-- The `req.user` object of the staff router. -/
structure StaffUser where
  id : Int
  tenant_id : String
  role : String
deriving Repr, DecidableEq

/-- Outcome of the staff router's authentication middleware. -/
inductive StaffAuthResult where
  | reject (status : Nat) (message : String)
  | ok (user : StaffUser)
deriving Repr, DecidableEq

/-- `verifyToken` of the staff router: extracts the bearer token
(`header.split(' ')[1]`), splits it into `tenant_slug:role`, rejects with
401 when the token is absent or the slug is empty or the role is outside
the recognised set, injects `req.user` (mock id 1) with the credential's
slug and role, and rejects clients with 403 — staff management is not for
role `client`. -/
def staffVerifyToken (authHeader : Option String) : StaffAuthResult :=
  let token := authHeader.bind (fun h => (jsSplit h ' ').get? 1)
  match token with
  | none => .reject 401 "No autenticado. Token no proporcionado."
  | some t =>
    if t = "" then .reject 401 "No autenticado. Token no proporcionado."
    else
      let parts := jsSplit t ':'
      let tenant_slug := parts.getD 0 ""
      let role := parts.getD 1 ""
      if tenant_slug = "" ∨ ¬ (["admin", "doctor", "receptionist", "client"].contains role) then
        .reject 401 "Token de simulación no válido."
      else
        let user : StaffUser := { id := 1, tenant_id := tenant_slug, role := role }
        if user.role == "client" then
          .reject 403 "Acceso denegado. Los clientes no pueden acceder a la gestión de personal."
        else
          .ok user

/-- `ensureTenantAccess` of the staff router: same chain as the order
routes' guard — 400 for a falsy requested slug, 404 when the slug matches
no tenant row, 403 when the authenticated user's tenant differs from the
requested slug, otherwise it attaches the resolved tenant. -/
def staffEnsureTenantAccess (db : DB) (requestedTenantSlug : Option String)
    (user : Option StaffUser) : GuardResult :=
  match requestedTenantSlug with
  | none => .badRequest "El ID de inquilino (slug) no se encontró en la solicitud."
  | some slug =>
    if slug = "" then .badRequest "El ID de inquilino (slug) no se encontró en la solicitud."
    else
      match getTenantInfoBySlug db slug with
      | none => .notFound ("Inquilino con ID " ++ slug ++ " no encontrado.")
      | some tenantInfo =>
        match user with
        | none =>
          .forbidden "Acceso denegado. No tiene permisos para acceder a los recursos de este inquilino."
        | some u =>
          if u.tenant_id ≠ slug then
            .forbidden "Acceso denegado. No tiene permisos para acceder a los recursos de este inquilino."
          else .authorized tenantInfo

/-- One element of the `users` array in the staff-list response. -/
structure StaffView where
  id : Nat
  tenant_id : String
  email : String
  name : String
  is_admin : Bool
  role : String
deriving Repr, DecidableEq

/-- Outcome of `GET /api/staff`. -/
inductive StaffListResult where
  | reject (status : Nat) (message : String)
  | ok (users : List StaffView)
deriving Repr, DecidableEq

/-- The staff-list endpoint `GET /api/staff`: `verifyToken`, then
`ensureTenantAccess` on the slug resolved from the host/header, and only
then the read of the resolved tenant's `staff` rows
(`SELECT ... FROM staff WHERE tenant_id = ?` with the resolved numeric
id), returned with the resolved slug. -/
def staffList (db : DB) (requestedTenantSlug : Option String)
    (authHeader : Option String) : StaffListResult :=
  match staffVerifyToken authHeader with
  | .reject s m => .reject s m
  | .ok user =>
    match staffEnsureTenantAccess db requestedTenantSlug (some user) with
    | .badRequest m => .reject 400 m
    | .notFound m => .reject 404 m
    | .forbidden m => .reject 403 m
    | .authorized tenantInfo =>
      .ok ((db.staff.filter (fun s => s.tenantId == tenantInfo.id)).map (fun s =>
        { id := s.id, tenant_id := tenantInfo.slug, email := s.email, name := s.name,
          is_admin := s.isAdmin, role := s.role }))

/-! ## Composed order endpoints (middleware chain plus handler) -/

/-- The HTTP status each order failure is surfaced with: the three
validations answer 400 directly; the two in-transaction errors are
thrown, caught and answered 500. -/
def OrderError.status : OrderError → Nat
  | .missingFields => 400
  | .dateNotFuture => 400
  | .dateTooFar => 400
  | .productUnavailable _ => 500
  | .insufficientStock _ => 500

/-- Outcome of `POST /api/orders`. -/
inductive OrdersPostResult where
  | reject (status : Nat) (message : String)
  | created (orderId : Nat) (total : ℚ)
deriving Repr, DecidableEq

/-- The full `POST /api/orders` pipeline: `verifyClientToken`, then
`ensureTenantAccess` on the resolved slug, then the order transaction on
the resolved tenant's numeric id; returns the response together with the
resulting database state (unchanged on every rejection). -/
def ordersPost (today : Int) (db : DB) (requestedTenantSlug : Option String)
    (authHeader : Option String) (items : List LineItem) (pickupDate : Int) :
    OrdersPostResult × DB :=
  match verifyClientToken authHeader with
  | .reject s m => (.reject s m, db)
  | .ok user =>
    match ensureTenantAccess db requestedTenantSlug (some user) with
    | .badRequest m => (.reject 400 m, db)
    | .notFound m => (.reject 404 m, db)
    | .forbidden m => (.reject 403 m, db)
    | .authorized tenantInfo =>
      match createOrder today db tenantInfo.id user.id items pickupDate with
      | (.error e, db2) => (.reject e.status e.message, db2)
      | (.ok (orderId, total), db2) => (.created orderId total, db2)

/-- Outcome of `GET /api/orders/my-orders`. -/
inductive MyOrdersResult where
  | reject (status : Nat) (message : String)
  | ok (orders : List OrderView)
deriving Repr, DecidableEq

/-- The full `GET /api/orders/my-orders` pipeline: `verifyClientToken`,
then `ensureTenantAccess` on the resolved slug, then the history read for
the authenticated client scoped to the resolved tenant's numeric id. -/
def myOrdersGet (db : DB) (requestedTenantSlug : Option String)
    (authHeader : Option String) (hostname : String) : MyOrdersResult :=
  match verifyClientToken authHeader with
  | .reject s m => .reject s m
  | .ok user =>
    match ensureTenantAccess db requestedTenantSlug (some user) with
    | .badRequest m => .reject 400 m
    | .notFound m => .reject 404 m
    | .forbidden m => .reject 403 m
    | .authorized tenantInfo => .ok (myOrders db tenantInfo.id user.id hostname)

/-! ## Derived quantities and sample database states -/

/-- The authoritative price the transaction reads for a product: the
`price` of the row matched by the locked select (`0` when no row
matches — that case aborts the transaction before the price is used). -/
def authPrice (db : DB) (tenantDbId : Nat) (productId : Nat) : ℚ :=
  ((findProduct db tenantDbId productId).map Product.price).getD 0

/-- The order total recomputed from the authoritative prices. -/
def authTotal (db : DB) (tenantDbId : Nat) (items : List LineItem) : ℚ :=
  (items.map (fun it => authPrice db tenantDbId it.productId * (it.quantity : ℚ))).sum

/-- Sample state: tenant `chavez` (id 1) with one available product
(id 1, price 10, stock 5). -/
def sampleDB : DB :=
  { tenants := [⟨1, "chavez"⟩],
    products := [⟨1, 1, "Croquetas", 10, 5, true⟩],
    orders := [], orderItems := [], productImages := [], images := [],
    staff := [], nextOrderId := 1 }

/-- Sample state for the staff scenario: tenants `chavez` (id 1) and
`acme` (id 2), with one staff row belonging to `acme`. -/
def staffDB : DB :=
  { tenants := [⟨1, "chavez"⟩, ⟨2, "acme"⟩],
    products := [], orders := [], orderItems := [], productImages := [], images := [],
    staff := [⟨7, 2, "vet@acme.com", "Dra. Ruiz", false, "doctor"⟩],
    nextOrderId := 1 }

/-- An empty database. -/
def emptyDB : DB :=
  { tenants := [], products := [], orders := [], orderItems := [],
    productImages := [], images := [], staff := [], nextOrderId := 1 }

/-! ## Claim C10 — default tenant fallback -/

/-- Claim C10: when the request's host is `localhost`, `127.0.0.1` or any
host without a dot, and no `x-tenant-slug` header is present, tenant
resolution does not fail: `resolveTenant` silently injects the literal
default slug `chavez`, so a request with no tenant identification at all
is scoped to that tenant. -/
theorem resolveTenant_defaults_to_chavez (path host : String)
    (hpath : jsStartsWith path "/api/external" = false)
    (hhost : host = "localhost" ∨ host = "127.0.0.1" ∨ jsIncludes host '.' = false) :
    resolveTenant path host none = some "chavez" := by
  unfold resolveTenant
  rcases hhost with h | h | h <;> simp [hpath, h]

/-- Witness for C10 at the concrete host `localhost`. -/
theorem resolveTenant_defaults_to_chavez_witness :
    resolveTenant "/api/orders" "localhost" none = some "chavez" :=
  resolveTenant_defaults_to_chavez "/api/orders" "localhost" rfl (Or.inl rfl)

/-! ## Claim C9 — tenant existence is checked before tenant match -/

/-- Claim C9: `ensureTenantAccess` checks tenant existence before the
cross-tenant check: when the requested slug matches no tenant row the
response is 404 regardless of the credential's tenant, and 403 is only
ever produced when the requested tenant exists. -/
theorem ensureTenantAccess_notFound_precedes_forbidden (db : DB) (slug : String)
    (user : Option ClientUser) (hslug : slug ≠ "") :
    (getTenantInfoBySlug db slug = none →
      ensureTenantAccess db (some slug) user =
        .notFound ("Inquilino " ++ slug ++ " no encontrado.")) ∧
    (∀ msg, ensureTenantAccess db (some slug) user = .forbidden msg →
      ∃ t ∈ db.tenants, t.slug = slug) := by
  constructor
  · intro h
    simp [ensureTenantAccess, hslug, h]
  · intro msg h
    cases hfind : getTenantInfoBySlug db slug with
    | none => simp [ensureTenantAccess, hslug, hfind] at h
    | some t =>
      have hbeq := List.find?_some hfind
      have hmem := List.mem_of_find?_eq_some hfind
      exact ⟨t, hmem, by simpa using hbeq⟩

/-- Witness for C9: with an empty tenants table and a credential for a
different tenant, the unknown slug `acme` answers 404, not 403. -/
theorem ensureTenantAccess_notFound_precedes_forbidden_witness :
    ensureTenantAccess emptyDB (some "acme") (some ⟨5, "other"⟩) =
      .notFound "Inquilino acme no encontrado." :=
  (ensureTenantAccess_notFound_precedes_forbidden emptyDB "acme" (some ⟨5, "other"⟩)
    (by decide)).1 rfl

/-! ## Claim C8 — rejection of non-client credentials -/

/-- Claim C8 counterexample: a credential that parses structurally but
carries role `admin` is rejected by `verifyClientToken` with HTTP 401
(`Unauthenticated`), not with 403 (`Forbidden`) as the claim states. -/
theorem verifyClientToken_admin_rejected_401 :
    verifyClientToken (some "Bearer chavez:admin:5") =
      .reject 401 "Token de cliente no válido." := rfl

/-- Claim C8 (amended): an absent credential is rejected with status 401
(`No autenticado.`), and a credential whose role part is anything other
than `client` — e.g. an admin or staff credential — is likewise rejected
with status 401 (`Token de cliente no válido.`), in both cases by the
middleware, before any business logic runs. -/
theorem verifyClientToken_non_client_rejected (h t : String)
    (htok : (jsSplit h ' ')[1]? = some t) (hne : t ≠ "")
    (hrole : ((jsSplit t ':')[1]?).getD "" ≠ "client") :
    verifyClientToken none = .reject 401 "No autenticado." ∧
    verifyClientToken (some h) = .reject 401 "Token de cliente no válido." := by
  refine ⟨rfl, ?_⟩
  simp [verifyClientToken, htok, hne, hrole]

/-- Witness for C8 (amended) at the concrete admin credential. -/
theorem verifyClientToken_non_client_rejected_witness :
    verifyClientToken none = .reject 401 "No autenticado." ∧
    verifyClientToken (some "Bearer chavez:admin:5") =
      .reject 401 "Token de cliente no válido." :=
  verifyClientToken_non_client_rejected "Bearer chavez:admin:5" "chavez:admin:5"
    rfl (by decide) (by decide)

/-! ## Claim C1 — cross-tenant isolation -/

/-- Claim C1: cross-tenant isolation.  For every request to a
tenant-scoped operation — order creation, order history, staff
management — whose parsed credential carries a tenant slug different
from the (non-empty) slug resolved from the host/header, with the
requested tenant existing, the operation is rejected with HTTP 403: the
order endpoints answer 403 with the database exactly unchanged (no read
result, no mutation), and the staff endpoint answers 403 serving no
staff row — regardless of anything else in the request (body items,
pickup date, hostname); no client-supplied tenant identifier enters the
guard at all. -/
theorem tenant_mismatch_rejected_forbidden (today : Int) (db : DB) (slug : String)
    (t : Tenant) (orderHdr staffHdr : Option String) (user : ClientUser)
    (suser : StaffUser) (items : List LineItem) (pickupDate : Int) (hostname : String)
    (hslug : slug ≠ "")
    (hten : getTenantInfoBySlug db slug = some t)
    (horder : verifyClientToken orderHdr = .ok user)
    (hmismatch : user.tenant_id ≠ slug)
    (hstaff : staffVerifyToken staffHdr = .ok suser)
    (hsmismatch : suser.tenant_id ≠ slug) :
    ordersPost today db (some slug) orderHdr items pickupDate =
      (.reject 403 "Acceso denegado.", db) ∧
    myOrdersGet db (some slug) orderHdr hostname =
      .reject 403 "Acceso denegado." ∧
    staffList db (some slug) staffHdr =
      .reject 403
        "Acceso denegado. No tiene permisos para acceder a los recursos de este inquilino." := by
  refine ⟨?_, ?_, ?_⟩
  · simp [ordersPost, horder, ensureTenantAccess, hslug, hten, hmismatch]
  · simp [myOrdersGet, horder, ensureTenantAccess, hslug, hten, hmismatch]
  · simp [staffList, hstaff, staffEnsureTenantAccess, hslug, hten, hsmismatch]

/-- Witness for C1: against the sample two-tenant database, a client
credential of tenant `other` aimed at resolved slug `acme` is answered
403 by order creation (database unchanged) and order history, and a
staff credential of tenant `other` is answered 403 by the staff list. -/
theorem tenant_mismatch_rejected_forbidden_witness :
    ordersPost 0 staffDB (some "acme") (some "Bearer other:client:9") [⟨1, 1⟩] 1 =
      (.reject 403 "Acceso denegado.", staffDB) ∧
    myOrdersGet staffDB (some "acme") (some "Bearer other:client:9") "acme.example.com" =
      .reject 403 "Acceso denegado." ∧
    staffList staffDB (some "acme") (some "Bearer other:admin:9") =
      .reject 403
        "Acceso denegado. No tiene permisos para acceder a los recursos de este inquilino." :=
  tenant_mismatch_rejected_forbidden 0 staffDB "acme" ⟨2, "acme"⟩
    (some "Bearer other:client:9") (some "Bearer other:admin:9")
    ⟨9, "other"⟩ ⟨1, "other", "admin"⟩ [⟨1, 1⟩] 1 "acme.example.com"
    (by decide) rfl rfl (by decide) rfl (by decide)

/-! ## Claim C2 — stock never negative / no oversell -/

/-- Claim C2 (code bug): the stock check reads the pre-transaction stock
for every line item and only then decrements, so a single order that
names the same `productId` twice oversells: with stock 5, the order
`[{productId 1, quantity 3}, {productId 1, quantity 3}]` commits with
total 60 and leaves the product's stock at `-1`, violating
`stock >= 0` and exceeding the initial stock by 1. -/
theorem createOrder_oversells_duplicate_product :
    (createOrder 0 sampleDB 1 1 [⟨1, 3⟩, ⟨1, 3⟩] 1).1 = .ok (1, 60) ∧
    ((createOrder 0 sampleDB 1 1 [⟨1, 3⟩, ⟨1, 3⟩] 1).2.products.map Product.stock)
      = [-1] := by
  constructor
  · simp [createOrder, checkItems, findProduct, insertItems, sampleDB]
    norm_num
  · simp [createOrder, checkItems, findProduct, insertItems, sampleDB]

/-! ## Claim C3 — atomicity of the order transaction -/

/-- The check phase can only fail with one of the two in-transaction
errors, and that error names a product. -/
theorem checkItems_error_names_product (db : DB) (tenantDbId : Nat) :
    ∀ (items : List LineItem) (prices : Nat → Option ℚ) (total : ℚ) (e : OrderError),
      checkItems db tenantDbId items prices total = .error e →
      ∃ pid, e = .productUnavailable pid ∨ e = .insufficientStock pid := by
  intro items
  induction items with
  | nil => intro prices total e h; simp [checkItems] at h
  | cons item rest ih =>
    intro prices total e h
    rw [checkItems] at h
    split at h
    · exact ⟨item.productId, Or.inl (Except.error.inj h).symm⟩
    · split at h
      · exact ⟨item.productId, Or.inr (Except.error.inj h).symm⟩
      · exact ih _ _ _ h

/-- Claim C3: atomicity — every failing `createOrder` call (validation
failure or any in-transaction failure) returns the database exactly as
it was: no order row, no order-item row and no stock decrement becomes
visible. -/
theorem createOrder_failure_rolls_back (today : Int) (db : DB) (tenantDbId : Nat)
    (clientId : Int) (items : List LineItem) (pickupDate : Int) (e : OrderError)
    (db' : DB)
    (h : createOrder today db tenantDbId clientId items pickupDate = (.error e, db')) :
    db' = db := by
  unfold createOrder at h
  split at h
  · exact (congrArg Prod.snd h).symm
  split at h
  · exact (congrArg Prod.snd h).symm
  split at h
  · exact (congrArg Prod.snd h).symm
  split at h
  · exact (congrArg Prod.snd h).symm
  · exact absurd (congrArg Prod.fst h) (by simp)

/-- Witness for C3: a one-item order failing the stock check leaves the
sample database untouched. -/
theorem createOrder_failure_rolls_back_witness :
    (createOrder 0 sampleDB 1 1 [⟨1, 99⟩] 1).2 = sampleDB :=
  createOrder_failure_rolls_back 0 sampleDB 1 1 [⟨1, 99⟩] 1 (.insufficientStock 1)
    (createOrder 0 sampleDB 1 1 [⟨1, 99⟩] 1).2
    (by simp [createOrder, checkItems, findProduct, sampleDB])

/-! ## Claim C4 — pickup-date window -/

/-- Claim C4: with a non-empty items list, `createOrder` rejects
`pickupDate = today` and `pickupDate = today + 11` with the respective
validation errors before the transaction is opened (the database is
returned untouched), while `pickupDate = today + 1` and
`today + 10` pass the date validation (any remaining failure can only be
an in-transaction product error, never a date error). -/
theorem createOrder_date_window (today : Int) (db : DB) (tenantDbId : Nat)
    (clientId : Int) (items : List LineItem) (hne : items ≠ []) :
    (createOrder today db tenantDbId clientId items today =
      (.error .dateNotFuture, db)) ∧
    (createOrder today db tenantDbId clientId items (today + 11) =
      (.error .dateTooFar, db)) ∧
    (∀ d, d = today + 1 ∨ d = today + 10 →
      (createOrder today db tenantDbId clientId items d).1 ≠ .error .dateNotFuture ∧
      (createOrder today db tenantDbId clientId items d).1 ≠ .error .dateTooFar) := by
  have hempty : items.isEmpty = false := by
    cases items with
    | nil => exact absurd rfl hne
    | cons a as => rfl
  refine ⟨?_, ?_, ?_⟩
  · unfold createOrder
    rw [hempty]
    simp
  · unfold createOrder
    rw [hempty]
    rw [if_neg (by simp), if_neg (by omega), if_pos (by omega)]
  · intro d hd
    unfold createOrder
    rw [hempty]
    rw [if_neg (by simp), if_neg (by omega), if_neg (by omega)]
    cases hc : checkItems db tenantDbId items (fun _ => none) 0 with
    | error e =>
      obtain ⟨pid, hpid | hpid⟩ :=
        checkItems_error_names_product db tenantDbId items (fun _ => none) 0 e hc
      · subst hpid; exact ⟨by simp, by simp⟩
      · subst hpid; exact ⟨by simp, by simp⟩
    | ok res => exact ⟨by simp, by simp⟩

/-- Witness for C4 at `today = 0` on the sample database: day 0 is
rejected as not in the future, day 11 as beyond the window, and days 1
and 10 pass the date validation. -/
theorem createOrder_date_window_witness :
    (createOrder 0 sampleDB 1 1 [⟨1, 1⟩] 0 = (.error .dateNotFuture, sampleDB)) ∧
    (createOrder 0 sampleDB 1 1 [⟨1, 1⟩] 11 = (.error .dateTooFar, sampleDB)) ∧
    (createOrder 0 sampleDB 1 1 [⟨1, 1⟩] 1).1 ≠ .error .dateNotFuture ∧
    (createOrder 0 sampleDB 1 1 [⟨1, 1⟩] 10).1 ≠ .error .dateTooFar := by
  have T := createOrder_date_window 0 sampleDB 1 1 [⟨1, 1⟩] (by simp)
  exact ⟨T.1, by simpa using T.2.1,
    (T.2.2 1 (Or.inl (by norm_num))).1, (T.2.2 10 (Or.inr (by norm_num))).2⟩

/-! ## Claim C7 — in-transaction product lookup and failure modes -/

/-- Walking a prefix whose items all pass the availability and stock
checks reduces the check phase to the remaining items (with some
accumulated prices and total). -/
theorem checkItems_append_of_passing (db : DB) (tenantDbId : Nat) :
    ∀ (pre rest : List LineItem) (prices : Nat → Option ℚ) (total : ℚ),
      (∀ j ∈ pre, ∃ p, findProduct db tenantDbId j.productId = some p ∧
        ¬ p.stock < j.quantity) →
      ∃ prices2 total2,
        checkItems db tenantDbId (pre ++ rest) prices total =
          checkItems db tenantDbId rest prices2 total2 := by
  intro pre
  induction pre with
  | nil => exact fun rest prices total _ => ⟨prices, total, rfl⟩
  | cons j pre ih =>
    intro rest prices total hpass
    obtain ⟨p, hfind, hstock⟩ := hpass j (List.mem_cons_self j pre)
    have hstep : checkItems db tenantDbId ((j :: pre) ++ rest) prices total =
        checkItems db tenantDbId (pre ++ rest)
          (fun k => if k = j.productId then some p.price else prices k)
          (total + p.price * (j.quantity : ℚ)) := by
      rw [List.cons_append, checkItems, hfind]
      simp [hstock]
    rw [hstep]
    exact ih rest _ _ (fun i hi => hpass i (List.mem_cons_of_mem j hi))

/-- Claim C7: inside the transaction, each item is looked up filtered by
tenant id, product id and `is_available = TRUE`.  When the failing item
is reached (all items before it pass), a missing row aborts the whole
call with `productUnavailable` and a row with `stock < quantity` aborts
it with `insufficientStock`; in both cases the database comes back
unchanged (no row inserted) and the error message names the offending
product id. -/
theorem createOrder_item_failure (today : Int) (db : DB) (tenantDbId : Nat)
    (clientId : Int) (pre post : List LineItem) (it : LineItem) (pickupDate : Int)
    (hdate1 : today < pickupDate) (hdate2 : pickupDate ≤ today + 10)
    (hpre : ∀ j ∈ pre, ∃ p, findProduct db tenantDbId j.productId = some p ∧
      ¬ p.stock < j.quantity) :
    (findProduct db tenantDbId it.productId = none →
      createOrder today db tenantDbId clientId (pre ++ it :: post) pickupDate =
        (.error (.productUnavailable it.productId), db) ∧
      (OrderError.productUnavailable it.productId).message =
        "El producto ID " ++ toString it.productId ++ " no está disponible.") ∧
    (∀ p, findProduct db tenantDbId it.productId = some p → p.stock < it.quantity →
      createOrder today db tenantDbId clientId (pre ++ it :: post) pickupDate =
        (.error (.insufficientStock it.productId), db) ∧
      (OrderError.insufficientStock it.productId).message =
        "Stock insuficiente para el producto ID " ++ toString it.productId ++ ".") := by
  have hempty : (pre ++ it :: post).isEmpty = false := by
    cases pre <;> rfl
  obtain ⟨prices2, total2, hred⟩ :=
    checkItems_append_of_passing db tenantDbId pre (it :: post) (fun _ => none) 0 hpre
  constructor
  · intro hnone
    refine ⟨?_, rfl⟩
    unfold createOrder
    rw [hempty]
    rw [if_neg (by simp), if_neg (by omega), if_neg (by omega), hred,
      checkItems, hnone]
  · intro p hfind hstock
    refine ⟨?_, rfl⟩
    unfold createOrder
    rw [hempty]
    rw [if_neg (by simp), if_neg (by omega), if_neg (by omega), hred,
      checkItems, hfind]
    simp [hstock]

/-- Witness for C7: a one-item order naming the absent product id 2 fails
with `productUnavailable 2` and leaves the sample database unchanged. -/
theorem createOrder_item_failure_witness :
    createOrder 0 sampleDB 1 1 [⟨2, 1⟩] 1 =
      (.error (.productUnavailable 2), sampleDB) ∧
    (OrderError.productUnavailable 2).message =
      "El producto ID 2 no está disponible." :=
  (createOrder_item_failure 0 sampleDB 1 1 [] [] ⟨2, 1⟩ 1 (by norm_num) (by norm_num)
    (by simp)).1 rfl

/-! ## Claim C5 — the total is the sum of authoritative price × quantity -/

/-- Check-phase success: the accumulated total adds, for every item, the
authoritative locked price times the requested quantity; the price map
records the authoritative price of every requested product and is
untouched elsewhere. -/
theorem checkItems_ok_spec (db : DB) (tenantDbId : Nat) :
    ∀ (items : List LineItem) (prices : Nat → Option ℚ) (total : ℚ)
      (prices' : Nat → Option ℚ) (total' : ℚ),
      checkItems db tenantDbId items prices total = .ok (prices', total') →
      total' = total + authTotal db tenantDbId items ∧
      (∀ it ∈ items, prices' it.productId =
        some (authPrice db tenantDbId it.productId)) ∧
      (∀ pid, (∀ it ∈ items, it.productId ≠ pid) → prices' pid = prices pid) := by
  intro items
  induction items with
  | nil =>
    intro prices total prices' total' h
    rw [checkItems] at h
    obtain ⟨rfl, rfl⟩ : prices = prices' ∧ total = total' := by simpa using h
    exact ⟨by simp [authTotal], by simp, fun pid _ => rfl⟩
  | cons item rest ih =>
    intro prices total prices' total' h
    rw [checkItems] at h
    split at h
    · exact absurd h (by simp)
    · rename_i product hfind
      split at h
      · exact absurd h (by simp)
      · obtain ⟨ht, hmem, hout⟩ := ih _ _ _ _ h
        have hauth : authPrice db tenantDbId item.productId = product.price := by
          simp [authPrice, hfind]
        refine ⟨?_, ?_, ?_⟩
        · rw [ht]
          simp only [authTotal, List.map_cons, List.sum_cons, hauth]
          ring
        · intro it hit
          rcases List.mem_cons.mp hit with rfl | hrest
          · by_cases hdup : ∀ j ∈ rest, j.productId ≠ it.productId
            · rw [hout it.productId hdup]
              simp [hauth]
            · push_neg at hdup
              obtain ⟨j, hj, hjeq⟩ := hdup
              have := hmem j hj
              rwa [hjeq] at this
          · exact hmem it hrest
        · intro pid hall
          rw [hout pid (fun j hj => hall j (List.mem_cons_of_mem item hj))]
          have : pid ≠ item.productId :=
            fun hk => hall item (List.mem_cons_self item rest) hk.symm
          simp [this]

/-- The insert phase appends exactly one `order_items` row per line item,
carrying the snapshotted price map value, and never touches the `orders`
table. -/
theorem insertItems_spec (orderId : Nat) (prices : Nat → Option ℚ) :
    ∀ (items : List LineItem) (db : DB),
      (insertItems orderId prices items db).orderItems =
        db.orderItems ++ items.map (fun it =>
          { orderId := orderId, productId := it.productId, quantity := it.quantity,
            unitPrice := (prices it.productId).getD 0 }) ∧
      (insertItems orderId prices items db).orders = db.orders := by
  intro items
  induction items with
  | nil => intro db; simp [insertItems]
  | cons item rest ih =>
    intro db
    simp only [insertItems]
    refine ⟨?_, ?_⟩
    · rw [(ih _).1]
      simp
    · rw [(ih _).2]

/-- Claim C5: for every committed order, the returned (and persisted)
total equals the sum over the order's line items of the authoritative
locked product price times the requested quantity (the request carries no
price field at all), and the stored `totalAmount` equals the sum over
the order's `order_items` rows of `unitPrice * quantity`.  Freshness of
the auto-increment id (no pre-existing row uses it) is the standing
`AUTO_INCREMENT` guarantee. -/
theorem createOrder_total_correct (today : Int) (db : DB) (tenantDbId : Nat)
    (clientId : Int) (items : List LineItem) (pickupDate : Int)
    (oid : Nat) (total : ℚ) (db' : DB)
    (hfreshI : ∀ oi ∈ db.orderItems, oi.orderId ≠ db.nextOrderId)
    (hfreshO : ∀ o ∈ db.orders, o.id ≠ db.nextOrderId)
    (h : createOrder today db tenantDbId clientId items pickupDate =
      (.ok (oid, total), db')) :
    total = authTotal db tenantDbId items ∧
    ((db'.orderItems.filter (fun oi => oi.orderId == oid)).map
      (fun oi => oi.unitPrice * (oi.quantity : ℚ))).sum = total ∧
    (db'.orders.filter (fun o => o.id == oid)).map Order.totalAmount = [total] := by
  unfold createOrder at h
  split at h
  · exact absurd h (by simp)
  split at h
  · exact absurd h (by simp)
  split at h
  · exact absurd h (by simp)
  split at h
  · exact absurd h (by simp)
  rename_i productPrices totalAmount hc
  simp only [Prod.mk.injEq, Except.ok.injEq] at h
  obtain ⟨⟨h1, h2⟩, h3⟩ := h
  obtain ⟨ht, hmem, -⟩ := checkItems_ok_spec db tenantDbId items _ _ _ _ hc
  rw [zero_add] at ht
  subst h1
  subst h2
  obtain ⟨hitems, horders⟩ := insertItems_spec db.nextOrderId productPrices items _
  rw [h3] at hitems horders
  refine ⟨ht, ?_, ?_⟩
  · rw [hitems]
    have hold : (db.orderItems.filter (fun oi => oi.orderId == db.nextOrderId)) = [] :=
      List.filter_eq_nil_iff.mpr (fun oi hoi => by simpa using hfreshI oi hoi)
    have hnew : ((items.map (fun it =>
        ({ orderId := db.nextOrderId, productId := it.productId,
           quantity := it.quantity,
           unitPrice := (productPrices it.productId).getD 0 } : OrderItem))).filter
          (fun oi => oi.orderId == db.nextOrderId)) =
        items.map (fun it =>
        ({ orderId := db.nextOrderId, productId := it.productId,
           quantity := it.quantity,
           unitPrice := (productPrices it.productId).getD 0 } : OrderItem)) :=
      List.filter_eq_self.mpr (fun oi hoi => by
        obtain ⟨it, -, rfl⟩ := List.mem_map.mp hoi
        simp)
    rw [List.filter_append, hold, hnew, List.nil_append, List.map_map, ht, authTotal]
    refine congrArg List.sum (List.map_congr_left ?_)
    intro it hit
    simp [Function.comp, hmem it hit]
  · rw [horders]
    have hold : (db.orders.filter (fun o => o.id == db.nextOrderId)) = [] :=
      List.filter_eq_nil_iff.mpr (fun o ho => by simpa using hfreshO o ho)
    simp [List.filter_append, hold]

/-- Witness for C5: a committed two-unit order on the sample database has
total 20, matching both the authoritative price sum and the persisted
rows. -/
theorem createOrder_total_correct_witness :
    (20 : ℚ) = authTotal sampleDB 1 [⟨1, 2⟩] ∧
    ((((createOrder 0 sampleDB 1 1 [⟨1, 2⟩] 1).2.orderItems.filter
        (fun oi => oi.orderId == 1)).map
      (fun oi => oi.unitPrice * (oi.quantity : ℚ))).sum = 20) ∧
    ((createOrder 0 sampleDB 1 1 [⟨1, 2⟩] 1).2.orders.filter
        (fun o => o.id == 1)).map Order.totalAmount = [(20 : ℚ)] :=
  createOrder_total_correct 0 sampleDB 1 1 [⟨1, 2⟩] 1 1 20
    (createOrder 0 sampleDB 1 1 [⟨1, 2⟩] 1).2
    (by simp [sampleDB]) (by simp [sampleDB])
    (by simp [createOrder, checkItems, findProduct, insertItems, sampleDB]; norm_num)

/-! ## Claim C6 — unit-price snapshot is immune to later price changes -/

/-- `find?` commutes with mapping a function that does not change the
predicate's verdict. -/
theorem find?_map_of_pred_invariant {α : Type} (f : α → α) (p : α → Bool)
    (hf : ∀ a, p (f a) = p a) :
    ∀ l : List α, (l.map f).find? p = (l.find? p).map f := by
  intro l
  induction l with
  | nil => rfl
  | cons a as ih =>
    by_cases ha : p a
    · simp [List.find?_cons, hf, ha]
    · simp only [List.map_cons, List.find?_cons]
      rw [hf a]
      simp only [ha]
      exact ih

/-- `priceUpdater` does not change a row's primary key, so any
`id`-based predicate is invariant under it. -/
theorem priceUpdater_id_pred (productId tenantDbId : Nat) (newPrice : ℚ)
    (pid : Nat) (a : Product) :
    ((priceUpdater productId tenantDbId newPrice a).id == pid) = (a.id == pid) := by
  unfold priceUpdater
  split <;> rfl

/-- The row set produced by the history item query does not depend on
product prices: a price update changes neither the join keys nor the
selected columns (`unit_price` comes from `order_items`, `name` and the
image keys are untouched). -/
theorem orderItemRows_price_invariant (db : DB) (productId tenantDbId : Nat)
    (newPrice : ℚ) (orderIds : List Nat) :
    orderItemRows (updateProductPrice db productId tenantDbId newPrice) orderIds =
      orderItemRows db orderIds := by
  unfold orderItemRows
  have h1 : (updateProductPrice db productId tenantDbId newPrice).orderItems =
    db.orderItems := rfl
  have h2 : (updateProductPrice db productId tenantDbId newPrice).products =
    db.products.map (priceUpdater productId tenantDbId newPrice) := rfl
  have h3 : (updateProductPrice db productId tenantDbId newPrice).productImages =
    db.productImages := rfl
  have h4 : (updateProductPrice db productId tenantDbId newPrice).images =
    db.images := rfl
  rw [h1, h2, h3, h4]
  apply List.filterMap_congr
  intro oi _
  rw [find?_map_of_pred_invariant (priceUpdater productId tenantDbId newPrice)
    (fun p => p.id == oi.productId)
    (priceUpdater_id_pred productId tenantDbId newPrice oi.productId) db.products]
  rw [Option.map_map]
  apply Option.map_congr
  intro a _
  simp only [Function.comp_apply]
  unfold priceUpdater
  split <;> rfl

/-- Claim C6: `unitPrice` is a creation-time snapshot — updating a
product's price afterwards changes neither the stored `order_items`
rows nor the stored `orders` rows (so `totalAmount` is unchanged), and
the whole `GET /my-orders` response, `unit_price` values included, is
identical before and after the price change (the read reports the
snapshot, never a value re-derived from the live product row). -/
theorem price_update_leaves_history_unchanged (db : DB) (productId tenantDbId : Nat)
    (newPrice : ℚ) (readTenantId : Nat) (clientId : Int) (hostname : String) :
    (updateProductPrice db productId tenantDbId newPrice).orderItems =
      db.orderItems ∧
    (updateProductPrice db productId tenantDbId newPrice).orders = db.orders ∧
    myOrders (updateProductPrice db productId tenantDbId newPrice)
        readTenantId clientId hostname =
      myOrders db readTenantId clientId hostname := by
  refine ⟨rfl, rfl, ?_⟩
  have horders : (updateProductPrice db productId tenantDbId newPrice).orders =
    db.orders := rfl
  simp only [myOrders, horders, orderItemRows_price_invariant]

end Vet
